import Mathlib

/-!
Verification development for the camera calibration / cross-camera
coordinate-transform core of the `transfer_smore_barcode` repository.

The Python source is shallowly embedded over exact rationals (ℚ):

* `src/epiceye/epicraw_parser.py` — binary frame decoder and point-cloud
  reconstructor (`get_file_type`, `EpicRaw1`/`EpicRaw2` accessors,
  `decode_point_cloud_from_depth`);
* `src/calibration.py` — `CameraCalibration`: `transform_point`,
  `transform_point_with_projectpoints`, `transform_roi`,
  `compute_homography_from_extrinsic`, `transform_roi_planar`,
  `calibrate_with_chessboard`, `calibrate_with_multiple_images`;
* `src/ui_tool.py` — `_get_depth_from_neighborhood` and the four-point
  transform path of `transform_coordinates`.

Modelling conventions:

* IEEE doubles are modelled as exact rationals; NaN/Inf never arise in ℚ, so
  the source's `np.isnan`/`np.isinf` guards are modelled by the explicit
  zero-divisor conditions that produce NaN/Inf in the source (noted at each
  definition).
* Byte buffers are `List ℕ` (each element one byte); multi-byte header fields
  are decoded little-endian exactly as `struct.unpack` does.  Buffers shorter
  than a header make `struct.unpack` raise in the source, so theorems carry
  the corresponding well-formedness hypotheses.
* OpenCV solvers (`findChessboardCorners`, `calibrateCamera`,
  `stereoCalibrate`) are external optimizers; their results enter the
  embedded calibration functions as explicit oracle arguments, and the
  embedding reproduces the surrounding control flow of the source exactly.
* Python's `int()` truncates toward zero; `truncQ` mirrors it.
-/

/-- A 3×3 matrix of rationals, row-major fields `aRC` (row `R`, column `C`).
Stands for the `np.ndarray` 3×3 camera/rotation/homography matrices. -/
structure Mat3 where
  a00 : ℚ
  a01 : ℚ
  a02 : ℚ
  a10 : ℚ
  a11 : ℚ
  a12 : ℚ
  a20 : ℚ
  a21 : ℚ
  a22 : ℚ
deriving DecidableEq

/-- A 3-vector of rationals. -/
def Vec3 : Type := ℚ × ℚ × ℚ

instance : DecidableEq Vec3 := by unfold Vec3; infer_instance

/-- The identity 3×3 matrix (`np.eye(3)`). -/
def mat3Id : Mat3 := ⟨1, 0, 0, 0, 1, 0, 0, 0, 1⟩

/-- Matrix product of two 3×3 matrices (`@` on 3×3 arrays). -/
def mat3Mul (m n : Mat3) : Mat3 :=
  ⟨m.a00*n.a00 + m.a01*n.a10 + m.a02*n.a20,
   m.a00*n.a01 + m.a01*n.a11 + m.a02*n.a21,
   m.a00*n.a02 + m.a01*n.a12 + m.a02*n.a22,
   m.a10*n.a00 + m.a11*n.a10 + m.a12*n.a20,
   m.a10*n.a01 + m.a11*n.a11 + m.a12*n.a21,
   m.a10*n.a02 + m.a11*n.a12 + m.a12*n.a22,
   m.a20*n.a00 + m.a21*n.a10 + m.a22*n.a20,
   m.a20*n.a01 + m.a21*n.a11 + m.a22*n.a21,
   m.a20*n.a02 + m.a21*n.a12 + m.a22*n.a22⟩

/-- Entry-wise difference of two 3×3 matrices. -/
def mat3Sub (m n : Mat3) : Mat3 :=
  ⟨m.a00 - n.a00, m.a01 - n.a01, m.a02 - n.a02,
   m.a10 - n.a10, m.a11 - n.a11, m.a12 - n.a12,
   m.a20 - n.a20, m.a21 - n.a21, m.a22 - n.a22⟩

/-- Scalar multiple of a 3×3 matrix. -/
def mat3Smul (c : ℚ) (m : Mat3) : Mat3 :=
  ⟨c*m.a00, c*m.a01, c*m.a02, c*m.a10, c*m.a11, c*m.a12, c*m.a20, c*m.a21, c*m.a22⟩

/-- Determinant of a 3×3 matrix. -/
def det3 (m : Mat3) : ℚ :=
  m.a00*(m.a11*m.a22 - m.a12*m.a21)
  - m.a01*(m.a10*m.a22 - m.a12*m.a20)
  + m.a02*(m.a10*m.a21 - m.a11*m.a20)

/-- Inverse of a 3×3 matrix by the adjugate formula (`np.linalg.inv`).
Meaningful only when `det3 m ≠ 0`; callers that model `np.linalg.inv`'s
`LinAlgError` guard on `det3 m = 0` explicitly. -/
def mat3Inv (m : Mat3) : Mat3 :=
  mat3Smul (1 / det3 m)
    ⟨m.a11*m.a22 - m.a12*m.a21, m.a02*m.a21 - m.a01*m.a22, m.a01*m.a12 - m.a02*m.a11,
     m.a12*m.a20 - m.a10*m.a22, m.a00*m.a22 - m.a02*m.a20, m.a02*m.a10 - m.a00*m.a12,
     m.a10*m.a21 - m.a11*m.a20, m.a01*m.a20 - m.a00*m.a21, m.a00*m.a11 - m.a01*m.a10⟩

/-- Outer product `np.outer(t, n)` of two 3-vectors. -/
def outerProd (t n : Vec3) : Mat3 :=
  ⟨t.1*n.1, t.1*n.2.1, t.1*n.2.2,
   t.2.1*n.1, t.2.1*n.2.1, t.2.1*n.2.2,
   t.2.2*n.1, t.2.2*n.2.1, t.2.2*n.2.2⟩

/-- Apply a 3×3 matrix to a 3-vector. -/
def mat3ApplyVec (m : Mat3) (v : Vec3) : Vec3 :=
  (m.a00*v.1 + m.a01*v.2.1 + m.a02*v.2.2,
   m.a10*v.1 + m.a11*v.2.1 + m.a12*v.2.2,
   m.a20*v.1 + m.a21*v.2.1 + m.a22*v.2.2)

/-- The Extrinsic Pose: the source stores a 4×4 homogeneous matrix
`self.extrinsic_matrix` whose bottom row is fixed to `[0,0,0,1]`; it is
built from (and only ever used through) its rotation block `R` and
translation column `t`, which is exactly what this structure carries. -/
structure Extrinsic where
  R : Mat3
  t : Vec3
deriving DecidableEq

/-- Apply the 4×4 homogeneous extrinsic matrix to a 3D point:
`extrinsic_matrix @ [x, y, z, 1]` and keep the first three components,
i.e. `R·p + t`. -/
def extApply (E : Extrinsic) (v : Vec3) : Vec3 :=
  let w := mat3ApplyVec E.R v
  (w.1 + E.t.1, w.2.1 + E.t.2.1, w.2.2 + E.t.2.2)

/-- Python `int()` on a float: truncation toward zero. -/
def truncQ (q : ℚ) : ℤ :=
  if q < 0 then -Int.floor (-q) else Int.floor q

/-- Minimum of a list of rationals (`np.min`); `0` on the empty list, which
never occurs at use sites (the source arrays are non-empty there). -/
def minList (l : List ℚ) : ℚ :=
  match l with
  | [] => 0
  | a :: t => t.foldl min a

/-- Maximum of a list of rationals (`np.max`); `0` on the empty list. -/
def maxList (l : List ℚ) : ℚ :=
  match l with
  | [] => 0
  | a :: t => t.foldl max a

/-- Integer range `[a, b)` as a list (the index set of a Python slice). -/
def intRange (a b : ℤ) : List ℤ :=
  (List.range (b - a).toNat).map (fun i => a + i)

/-! ### Binary frame decoder — `src/epiceye/epicraw_parser.py` -/

/-- The decoder's format-version tag, `FileType` in `epicraw_parser.py`. -/
inductive FileType where
  | NotSupported : FileType
  | EpicRaw1 : FileType
  | EpicRaw2 : FileType
deriving DecidableEq

/-- The bytes of the magic tag `b"EPICRAW1"`. -/
def EPICRAW1_TAG : List ℕ := [69, 80, 73, 67, 82, 65, 87, 49]

/-- The bytes of the magic tag `b"EPICRAW2"`. -/
def EPICRAW2_TAG : List ℕ := [69, 80, 73, 67, 82, 65, 87, 50]

/-- `_get_file_type`: compare the first 8 bytes with the two magic tags, and
default to the first format when the 8th byte is zero.  For buffers shorter
than 8 bytes `struct.unpack('<8s', …)` raises in the source, so the model is
only meaningful under the hypothesis `8 ≤ data.length` (the `getD` default 1
is arbitrary and never reached under that hypothesis). -/
def get_file_type (data : List ℕ) : FileType :=
  if data.take 8 = EPICRAW1_TAG then FileType.EpicRaw1
  else if data.take 8 = EPICRAW2_TAG then FileType.EpicRaw2
  else if data.getD 7 1 = 0 then FileType.EpicRaw1
  else FileType.NotSupported

/-- Little-endian signed 32-bit integer at byte offset `off`
(a `struct` `i` field). -/
def readI32 (data : List ℕ) (off : ℕ) : ℤ :=
  let u : ℕ := data.getD off 0 + 256 * data.getD (off+1) 0
    + 65536 * data.getD (off+2) 0 + 16777216 * data.getD (off+3) 0
  if 2147483648 ≤ u then (u : ℤ) - 4294967296 else (u : ℤ)

/-- Python slice `data[start : start + len]` for a nonnegative `start`;
a nonpositive `len` yields the empty slice.  (Negative *offsets*, which
Python would wrap around from the end of the buffer, only arise from
corrupted negative header lengths and are outside this model.) -/
def listSlice (data : List ℕ) (start : ℤ) (len : ℤ) : List ℕ :=
  ((data.drop start.toNat).take len.toNat)

/-- `EpicRaw1.get_depth`: fixed 168-byte header `<8s 2i 144s 2i` — tag,
width, height, a 144-byte block, depth length, image length.  A zero depth
length means the section is absent (`None`); otherwise the result is the
raw `float32` depth payload (returned here as its byte slice) together with
the decoded width and height used to reshape it. -/
def epicraw1_get_depth (data : List ℕ) : Option (ℤ × ℤ × List ℕ) :=
  let width := readI32 data 8
  let height := readI32 data 12
  let depth_data_len := readI32 data 160
  if depth_data_len = 0 then none
  else some (width, height, listSlice data 168 depth_data_len)

/-- `EpicRaw1.get_image`: zero image length means absent; otherwise the
8-bit RGB payload is everything after the depth section (returned as bytes
with the reshape dimensions). -/
def epicraw1_get_image (data : List ℕ) : Option (ℤ × ℤ × List ℕ) :=
  let width := readI32 data 8
  let height := readI32 data 12
  let depth_data_len := readI32 data 160
  let image_data_len := readI32 data 164
  if image_data_len = 0 then none
  else some (width, height, data.drop (168 + depth_data_len).toNat)

/-- `EpicRaw1.get_camera_matrix`: the 72 header bytes at offset 16
(`<16s 72s 80s`), viewed by the source as nine row-major `float64`s;
the byte slice is returned unparsed. -/
def epicraw1_get_camera_matrix (data : List ℕ) : List ℕ :=
  listSlice data 16 72

/-- `EpicRaw1.get_distortion`: the 40 header bytes at offset 88
(`<88s 40s 40s`), viewed by the source as `float64`s. -/
def epicraw1_get_distortion (data : List ℕ) : List ℕ :=
  listSlice data 88 40

/-- `EpicRaw2.get_depth`: variable 40-byte header `<8s 8i` — tag, width,
height, data type, camera-matrix length, distortion length, config length,
depth length, image length; the depth payload sits after the three
length-prefixed sections. -/
def epicraw2_get_depth (data : List ℕ) : Option (ℤ × ℤ × List ℕ) :=
  let width := readI32 data 8
  let height := readI32 data 12
  let camera_matrix_len := readI32 data 20
  let distortion_len := readI32 data 24
  let config_str_len := readI32 data 28
  let depth_data_len := readI32 data 32
  if depth_data_len = 0 then none
  else some (width, height,
    listSlice data (40 + camera_matrix_len + distortion_len + config_str_len) depth_data_len)

/-- `EpicRaw2.get_image`: zero image length means absent; the 16-bit RGB
payload is everything after the depth section. -/
def epicraw2_get_image (data : List ℕ) : Option (ℤ × ℤ × List ℕ) :=
  let width := readI32 data 8
  let height := readI32 data 12
  let camera_matrix_len := readI32 data 20
  let distortion_len := readI32 data 24
  let config_str_len := readI32 data 28
  let depth_data_len := readI32 data 32
  let image_data_len := readI32 data 36
  if image_data_len = 0 then none
  else some (width, height,
    (data.drop (40 + camera_matrix_len + distortion_len + config_str_len + depth_data_len).toNat))

/-- `EpicRaw2.get_camera_matrix`: the length-prefixed camera-matrix section
directly after the header. -/
def epicraw2_get_camera_matrix (data : List ℕ) : List ℕ :=
  listSlice data 40 (readI32 data 20)

/-- `EpicRaw2.get_distortion`: the length-prefixed distortion section after
the camera-matrix section. -/
def epicraw2_get_distortion (data : List ℕ) : List ℕ :=
  listSlice data (40 + readI32 data 20) (readI32 data 24)

/-- `get_depth_from_bytes`: dispatch on the format version; an unrecognized
tag yields `None`. -/
def get_depth_from_bytes (data : List ℕ) : Option (ℤ × ℤ × List ℕ) :=
  match get_file_type data with
  | FileType.EpicRaw1 => epicraw1_get_depth data
  | FileType.EpicRaw2 => epicraw2_get_depth data
  | FileType.NotSupported => none

/-- `get_image_from_epicraw_bytes`: dispatch on the format version. -/
def get_image_from_epicraw_bytes (data : List ℕ) : Option (ℤ × ℤ × List ℕ) :=
  match get_file_type data with
  | FileType.EpicRaw1 => epicraw1_get_image data
  | FileType.EpicRaw2 => epicraw2_get_image data
  | FileType.NotSupported => none

/-- `get_matrix_from_epicraw_bytes`: dispatch on the format version. -/
def get_matrix_from_epicraw_bytes (data : List ℕ) : Option (List ℕ) :=
  match get_file_type data with
  | FileType.EpicRaw1 => some (epicraw1_get_camera_matrix data)
  | FileType.EpicRaw2 => some (epicraw2_get_camera_matrix data)
  | FileType.NotSupported => none

/-- `get_distortion_from_epicraw_bytes`: dispatch on the format version. -/
def get_distortion_from_epicraw_bytes (data : List ℕ) : Option (List ℕ) :=
  match get_file_type data with
  | FileType.EpicRaw1 => some (epicraw1_get_distortion data)
  | FileType.EpicRaw2 => some (epicraw2_get_distortion data)
  | FileType.NotSupported => none

/-! ### Point-cloud reconstructor — `_decode_point_cloud_from_depth` -/

/-- A decoded depth map: `rows × cols` float32 samples, addressed as
`depth_map[v, u]` in the source (the index type is ℤ because the source
indexes with Python ints after an explicit bounds check; reads outside
`[0, rows) × [0, cols)` never occur behind those checks). -/
structure DepthMap where
  rows : ℕ
  cols : ℕ
  entry : ℤ → ℤ → ℚ

/-- The undistortion lookup coordinates at pixel `(v, u)`: the supplied LUT
when present, else the identity remap built by
`np.stack(np.meshgrid(range(w), range(h)), axis=2)` — `(u, v)` itself. -/
def lutUV (lut : Option (ℕ → ℕ → ℚ × ℚ)) (v u : ℕ) : ℚ × ℚ :=
  match lut with
  | some f => f v u
  | none => ((u : ℚ), (v : ℚ))

/-- `_decode_point_cloud_from_depth` at pixel `(v, u)`:
`x = (u' - cx)·d/fx`, `y = (v' - cy)·d/fy`, `z = d`, with the pixel marked
invalid — all three coordinates overwritten with NaN, modelled as `none` —
when `d < 0.1` or `d > 6000`. -/
def decode_point_cloud_from_depth (depth : DepthMap) (lut : Option (ℕ → ℕ → ℚ × ℚ))
    (matrix : Mat3) (v u : ℕ) : Option (ℚ × ℚ × ℚ) :=
  let d := depth.entry (v : ℤ) (u : ℤ)
  if d < 1/10 ∨ 6000 < d then none
  else some (((lutUV lut v u).1 - matrix.a02) * d / matrix.a00,
             ((lutUV lut v u).2 - matrix.a12) * d / matrix.a11,
             d)

/-! ### Coordinate transformer — `src/calibration.py` -/

/-- One step of the fixed-point compensation loop inside
`cv2.undistortPoints` (its default term criteria run five steps), for the
Brown–Conrady coefficients `(k1, k2, p1, p2, k3)`. -/
def undistort_iterate (k1 k2 p1 p2 k3 x0 y0 : ℚ) : ℕ → ℚ × ℚ
  | 0 => (x0, y0)
  | n + 1 =>
    let xy := undistort_iterate k1 k2 p1 p2 k3 x0 y0 n
    let r2 := xy.1 * xy.1 + xy.2 * xy.2
    let icdist := 1 / (1 + ((k3 * r2 + k2) * r2 + k1) * r2)
    let dx := 2 * p1 * xy.1 * xy.2 + p2 * (r2 + 2 * xy.1 * xy.1)
    let dy := p1 * (r2 + 2 * xy.2 * xy.2) + 2 * p2 * xy.1 * xy.2
    ((x0 - dx) * icdist, (y0 - dy) * icdist)

/-- `cv2.undistortPoints(point, K, dist, P=None)`: map a distorted pixel to
normalized (z = 1) camera coordinates, inverting the distortion by the
five-step fixed-point iteration OpenCV uses by default. -/
def undistortPointNorm (K : Mat3) (dist : List ℚ) (p : ℚ × ℚ) : ℚ × ℚ :=
  undistort_iterate (dist.getD 0 0) (dist.getD 1 0) (dist.getD 2 0) (dist.getD 3 0)
    (dist.getD 4 0) ((p.1 - K.a02) / K.a00) ((p.2 - K.a12) / K.a11) 5

/-- `cv2.undistortPoints(points, K, dist, P=K)`: as `undistortPointNorm`, but
re-projected through `P = K` to undistorted pixel coordinates
(used by `transform_roi_planar`). -/
def undistortPointPixel (K : Mat3) (dist : List ℚ) (p : ℚ × ℚ) : ℚ × ℚ :=
  let n := undistortPointNorm K dist p
  (K.a00 * n.1 + K.a01 * n.2 + K.a02, K.a10 * n.1 + K.a11 * n.2 + K.a12)

/-- `cv2.projectPoints(q, rvec=0, tvec=0, K, dist)` on a single 3D point:
pinhole projection with the Brown–Conrady radial/tangential distortion
`(k1, k2, p1, p2, k3)` read from `dist` (missing entries are zero). -/
def distortProject (K : Mat3) (dist : List ℚ) (q : Vec3) : ℚ × ℚ :=
  let xp := q.1 / q.2.2
  let yp := q.2.1 / q.2.2
  let k1 := dist.getD 0 0
  let k2 := dist.getD 1 0
  let p1 := dist.getD 2 0
  let p2 := dist.getD 3 0
  let k3 := dist.getD 4 0
  let r2 := xp * xp + yp * yp
  let radial := 1 + k1 * r2 + k2 * r2 * r2 + k3 * r2 * r2 * r2
  let xpp := xp * radial + 2 * p1 * xp * yp + p2 * (r2 + 2 * xp * xp)
  let ypp := yp * radial + p1 * (r2 + 2 * yp * yp) + 2 * p2 * xp * yp
  (K.a00 * xpp + K.a02, K.a11 * ypp + K.a12)

/-- `CameraCalibration.transform_point`: back-project the camera-1 pixel with
the supplied depth through `K1`, apply the extrinsic matrix, and pinhole
forward-project through `K2`.  Fails (`None`) when the extrinsic matrix is
not calibrated, when no positive depth is supplied, or when the transformed
point lies at or behind camera 2 (`z ≤ 0`).  The two distortion arguments
are accepted and ignored, exactly as in the source. -/
def transform_point (extrinsic_matrix : Option Extrinsic) (point : ℚ × ℚ)
    (camera1_matrix camera2_matrix : Mat3)
    (camera1_distortion camera2_distortion : Option (List ℚ))
    (depth : Option ℚ) : Option (ℚ × ℚ) :=
  match extrinsic_matrix with
  | none => none
  | some E =>
    match depth with
    | none => none
    | some d =>
      if d ≤ 0 then none
      else
        let x := (point.1 - camera1_matrix.a02) * d / camera1_matrix.a00
        let y := (point.2 - camera1_matrix.a12) * d / camera1_matrix.a11
        let q := extApply E (x, y, d)
        if q.2.2 ≤ 0 then none
        else some (camera2_matrix.a00 * q.1 / q.2.2 + camera2_matrix.a02,
                   camera2_matrix.a11 * q.2.1 / q.2.2 + camera2_matrix.a12)

/-- Whether a distortion argument triggers the undistortion branch:
`camera1_distortion is not None and len(...) > 0 and np.any(... != 0)`. -/
def hasNonzeroDist (dist : Option (List ℚ)) : Bool :=
  match dist with
  | none => false
  | some l => l.any (fun c => decide (c ≠ 0))

/-- `CameraCalibration.transform_point_with_projectpoints`: like
`transform_point` but undistorting the camera-1 pixel first when camera 1
has any nonzero distortion, and forward-projecting with
`cv2.projectPoints` (identity pose, camera-2 distortion or zeros). -/
def transform_point_with_projectpoints (extrinsic_matrix : Option Extrinsic)
    (point : ℚ × ℚ) (camera1_matrix camera2_matrix : Mat3)
    (camera1_distortion camera2_distortion : Option (List ℚ))
    (depth : Option ℚ) : Option (ℚ × ℚ) :=
  match extrinsic_matrix with
  | none => none
  | some E =>
    match depth with
    | none => none
    | some d =>
      if d ≤ 0 then none
      else
        let n :=
          if hasNonzeroDist camera1_distortion then
            undistortPointNorm camera1_matrix (camera1_distortion.getD []) point
          else
            ((point.1 - camera1_matrix.a02) / camera1_matrix.a00,
             (point.2 - camera1_matrix.a12) / camera1_matrix.a11)
        let q := extApply E (n.1 * d, n.2 * d, d)
        if q.2.2 ≤ 0 then none
        else some (distortProject camera2_matrix (camera2_distortion.getD [0, 0, 0, 0]) q)

/-- The four corner pixels of `roi = (x, y, w, h)` in the order the source
builds them: top-left, top-right, bottom-right, bottom-left. -/
def roiCorners (roi : ℤ × ℤ × ℤ × ℤ) : List (ℤ × ℤ) :=
  [(roi.1, roi.2.1),
   (roi.1 + roi.2.2.1, roi.2.1),
   (roi.1 + roi.2.2.1, roi.2.1 + roi.2.2.2),
   (roi.1, roi.2.1 + roi.2.2.2)]

/-- The per-corner body of the loop in `CameraCalibration.transform_roi`:
a corner contributes a transformed point only if it lies inside the depth
map, its exact-pixel depth is positive, and
`transform_point_with_projectpoints` succeeds on it; otherwise it is
dropped. -/
def roiCornerTransform (E : Extrinsic) (camera1_matrix camera2_matrix : Mat3)
    (camera1_distortion camera2_distortion : Option (List ℚ))
    (depth_map : DepthMap) (c : ℤ × ℤ) : Option (ℚ × ℚ) :=
  if 0 ≤ c.2 ∧ c.2 < (depth_map.rows : ℤ) ∧ 0 ≤ c.1 ∧ c.1 < (depth_map.cols : ℤ) then
    let d := depth_map.entry c.2 c.1
    if 0 < d then
      transform_point_with_projectpoints (some E) ((c.1 : ℚ), (c.2 : ℚ))
        camera1_matrix camera2_matrix camera1_distortion camera2_distortion (some d)
    else none
  else none

/-- The list of successfully transformed ROI corners
(`transformed_corners` in the source). -/
def transformedROICorners (E : Extrinsic) (roi : ℤ × ℤ × ℤ × ℤ)
    (camera1_matrix camera2_matrix : Mat3)
    (camera1_distortion camera2_distortion : Option (List ℚ))
    (depth_map : DepthMap) : List (ℚ × ℚ) :=
  (roiCorners roi).filterMap
    (roiCornerTransform E camera1_matrix camera2_matrix
      camera1_distortion camera2_distortion depth_map)

/-- The bounding-box computation at the end of `transform_roi`:
`int()`-truncate the coordinate extrema, clamp the origin at 0, and return
`(x, y, w, h)` with `w = max_x - min_x`, `h = max_y - min_y`. -/
def roiBoundingBox (pts : List (ℚ × ℚ)) : ℤ × ℤ × ℤ × ℤ :=
  let min_x := truncQ (minList (pts.map Prod.fst))
  let min_y := truncQ (minList (pts.map Prod.snd))
  let max_x := truncQ (maxList (pts.map Prod.fst))
  let max_y := truncQ (maxList (pts.map Prod.snd))
  (max 0 min_x, max 0 min_y, max_x - min_x, max_y - min_y)

/-- `CameraCalibration.transform_roi`: transform the four ROI corners through
the depth map; fail when the extrinsic matrix is missing, the depth map is
missing, or fewer than 2 corners transform; otherwise return the bounding
box of the transformed corners. -/
def transform_roi (extrinsic_matrix : Option Extrinsic) (roi : ℤ × ℤ × ℤ × ℤ)
    (camera1_matrix camera2_matrix : Mat3)
    (camera1_distortion camera2_distortion : Option (List ℚ))
    (depth_map : Option DepthMap) : Option (ℤ × ℤ × ℤ × ℤ) :=
  match extrinsic_matrix with
  | none => none
  | some E =>
    match depth_map with
    | none => none
    | some dm =>
      let tc := transformedROICorners E roi camera1_matrix camera2_matrix
        camera1_distortion camera2_distortion dm
      if tc.length < 2 then none
      else some (roiBoundingBox tc)

/-- `CameraCalibration.compute_homography_from_extrinsic` with the default
plane normal (`plane_normal=None` ⇒ `n = (0,0,1)`, already unit length, so
its normalization is the identity): `H = K2 · (R − t·nᵀ/d) · K1⁻¹`,
normalized so that `H[2,2] = 1` when `|H[2,2]| > 1e-10`, else `None`.
A singular `K1` makes `np.linalg.inv` raise (caught, `None`), and
`plane_depth = 0` makes `t·nᵀ/d` NaN/Inf, caught by the source's
`isnan`/`isinf` check (`None`); both are modelled by explicit guards. -/
def compute_homography_from_extrinsic (extrinsic_matrix : Option Extrinsic)
    (camera1_matrix camera2_matrix : Mat3) (plane_depth : ℚ) : Option Mat3 :=
  match extrinsic_matrix with
  | none => none
  | some E =>
    if det3 camera1_matrix = 0 then none
    else if plane_depth = 0 then none
    else
      let t_nT := mat3Smul (1 / plane_depth) (outerProd E.t (0, 0, 1))
      let R_modified := mat3Sub E.R t_nT
      let H := mat3Mul camera2_matrix (mat3Mul R_modified (mat3Inv camera1_matrix))
      if 1/10000000000 < |H.a22| then some (mat3Smul (1 / H.a22) H)
      else none

/-- `CameraCalibration.transform_roi_planar`: derive the homography for the
assumed plane depth, undistort the four ROI corners when camera 1 has any
nonzero distortion, map them through `H`, refuse when any homogeneous third
component has absolute value below `1e-6`, and return the truncated,
origin-clamped bounding box with width and height clamped to at least 1.
(The camera-2 distortion branch of the source leaves the points unchanged
in both cases, and is modelled accordingly.) -/
def transform_roi_planar (extrinsic_matrix : Option Extrinsic)
    (roi : ℤ × ℤ × ℤ × ℤ) (camera1_matrix camera2_matrix : Mat3)
    (plane_depth : ℚ)
    (camera1_distortion camera2_distortion : Option (List ℚ)) :
    Option (ℤ × ℤ × ℤ × ℤ) :=
  match extrinsic_matrix with
  | none => none
  | some E =>
    match compute_homography_from_extrinsic (some E) camera1_matrix camera2_matrix
      plane_depth with
    | none => none
    | some H =>
      let corners_distorted : List (ℚ × ℚ) :=
        (roiCorners roi).map (fun c => ((c.1 : ℚ), (c.2 : ℚ)))
      let corners_undistorted :=
        if hasNonzeroDist camera1_distortion then
          corners_distorted.map
            (undistortPointPixel camera1_matrix (camera1_distortion.getD []))
        else corners_distorted
      if corners_undistorted.any
          (fun p => decide (|H.a20 * p.1 + H.a21 * p.2 + H.a22| < 1/1000000)) then
        none
      else
        let transformed := corners_undistorted.map (fun p =>
          let z := H.a20 * p.1 + H.a21 * p.2 + H.a22
          ((H.a00 * p.1 + H.a01 * p.2 + H.a02) / z,
           (H.a10 * p.1 + H.a11 * p.2 + H.a12) / z))
        let min_x := truncQ (minList (transformed.map Prod.fst))
        let min_y := truncQ (minList (transformed.map Prod.snd))
        let max_x := truncQ (maxList (transformed.map Prod.fst))
        let max_y := truncQ (maxList (transformed.map Prod.snd))
        some (max 0 min_x, max 0 min_y, max 1 (max_x - min_x), max 1 (max_y - min_y))

/-! ### UI-tool depth fallback — `src/ui_tool.py` -/

/-- `CalibrationTool._get_depth_from_neighborhood`: the mean of the positive
depth values in the clipped window of radius `search_radius` around
`(x, y)`, or `0` when the window holds no positive depth. -/
def get_depth_from_neighborhood (depth_map : DepthMap) (x y : ℤ)
    (search_radius : ℤ) : ℚ :=
  let y_min := max 0 (y - search_radius)
  let y_max := min (depth_map.rows : ℤ) (y + search_radius + 1)
  let x_min := max 0 (x - search_radius)
  let x_max := min (depth_map.cols : ℤ) (x + search_radius + 1)
  let vals := (intRange y_min y_max).flatMap
    (fun v => (intRange x_min x_max).map (fun u => depth_map.entry v u))
  let valid := vals.filter (fun d => decide (0 < d))
  if 0 < valid.length then valid.sum / (valid.length : ℚ) else 0

/-! ### Stereo calibration — `calibrate_with_chessboard` /
`calibrate_with_multiple_images` -/

/-- The process-wide calibration state of a `CameraCalibration` object:
the Extrinsic Pose and the cached intrinsics read by the transform
operations. -/
structure CalibState where
  extrinsic_matrix : Option Extrinsic
  camera1_matrix : Option Mat3
  camera1_distortion : Option (List ℚ)
  camera2_matrix : Option Mat3
  camera2_distortion : Option (List ℚ)
deriving DecidableEq

/-- Result of one `cv2.calibrateCamera` run (an external optimizer, supplied
as an oracle): the returned reprojection error `ret` (the source treats
`ret = 0` as failure via `if not ret`), camera matrix and distortion. -/
structure MonoResult where
  ret : ℚ
  M : Mat3
  dist : List ℚ
deriving DecidableEq

/-- Result of one `cv2.stereoCalibrate` run (oracle): reprojection error
`ret` (`ret = 0` is failure), the echoed per-camera intrinsics, and the
relative pose `R`, `T`.  The surrounding `try`/`except` of the source is
modelled by wrapping the oracle in `Option` (`none` = the call raised). -/
structure StereoResult where
  ret : ℚ
  M1 : Mat3
  d1 : List ℚ
  M2 : Mat3
  d2 : List ℚ
  R : Mat3
  T : Vec3
deriving DecidableEq

/-- Interpret a camera-matrix argument, given as its flat element list
(a 3×3 array flattens to 9 row-major elements; a 1-D 9-element array is
reshaped): any other length is the malformed-intrinsics failure return. -/
def mat3_of_flat (l : List ℚ) : Option Mat3 :=
  if l.length = 9 then
    some ⟨l.getD 0 0, l.getD 1 0, l.getD 2 0,
          l.getD 3 0, l.getD 4 0, l.getD 5 0,
          l.getD 6 0, l.getD 7 0, l.getD 8 0⟩
  else none

/-- The initial intrinsic guess for camera 2's monocular calibration:
`fx = fy = 0.8 * max(w2, h2)`, `cx = w2/2`, `cy = h2/2`
(`camera_matrix_init` in the source). -/
def camera2_init_matrix (w h : ℚ) : Mat3 :=
  ⟨(4/5) * max w h, 0, w / 2,
   0, (4/5) * max w h, h / 2,
   0, 0, 1⟩

/-- The plausibility validation applied to camera 2's monocular-calibration
result (`calibrate_with_chessboard`, after `cv2.calibrateCamera`):
a focal length outside `[0.3, 3]×` the image dimension replaces matrix and
distortion by the initial guess with zero distortion; otherwise a principal
point outside the image bounds resets only `cx, cy` to the initial guess
(keeping the optimized focal lengths and distortion); finally a focal
length above `10×` the image dimension again falls back to the initial
guess with zero distortion. -/
def validate_camera2_mono (w h : ℚ) (M : Mat3) (dist : List ℚ) : Mat3 × List ℚ :=
  let init := camera2_init_matrix w h
  let r1 :=
    if M.a00 < w * (3/10) ∨ w * 3 < M.a00 ∨ M.a11 < h * (3/10) ∨ h * 3 < M.a11 then
      (init, ([0, 0, 0, 0] : List ℚ))
    else if M.a02 < 0 ∨ w < M.a02 ∨ M.a12 < 0 ∨ h < M.a12 then
      ({ M with a02 := w / 2, a12 := h / 2 }, dist)
    else (M, dist)
  if w * 10 < r1.1.a00 ∨ h * 10 < r1.1.a11 then (init, ([0, 0, 0, 0] : List ℚ))
  else r1

/-- Resolution of camera 1's intrinsics in `calibrate_with_chessboard`:
when no matrix is supplied, run monocular calibration (oracle `mono1`,
failure when `ret = 0`); when one is supplied, parse it (malformed shape is
a failure) and default the distortion to `np.zeros(4)`. -/
def resolve_camera1 (camera1_matrix : Option (List ℚ))
    (camera1_distortion : Option (List ℚ)) (mono1 : MonoResult) :
    Option (Mat3 × List ℚ) :=
  match camera1_matrix with
  | none => if mono1.ret = 0 then none else some (mono1.M, mono1.dist)
  | some l =>
    match mat3_of_flat l with
    | none => none
    | some M => some (M, camera1_distortion.getD [0, 0, 0, 0])

/-- Resolution of camera 2's intrinsics in `calibrate_with_chessboard`:
as for camera 1, but a monocular result additionally passes through the
plausibility validation `validate_camera2_mono`. -/
def resolve_camera2 (w2 h2 : ℚ) (camera2_matrix : Option (List ℚ))
    (camera2_distortion : Option (List ℚ)) (mono2 : MonoResult) :
    Option (Mat3 × List ℚ) :=
  match camera2_matrix with
  | none =>
    if mono2.ret = 0 then none
    else some (validate_camera2_mono w2 h2 mono2.M mono2.dist)
  | some l =>
    match mat3_of_flat l with
    | none => none
    | some M => some (M, camera2_distortion.getD [0, 0, 0, 0])

/-- `CameraCalibration.calibrate_with_chessboard` on state `st`:
detection of the chessboard in both images (`det1`, `det2`), intrinsic
resolution for both cameras, the focal-positivity checks, and the stereo
calibration (oracle; `none` = the call raised, `ret = 0` = failure).
Every failure path returns `(st, false)` — the state is untouched; the
success path stores the new extrinsic matrix and all four cached
intrinsics and returns `true`.  (`w1`, `h1` feed only warning prints in the
source.) -/
def calibrate_with_chessboard (st : CalibState) (det1 det2 : Bool)
    (w1 h1 w2 h2 : ℚ)
    (camera1_matrix camera2_matrix : Option (List ℚ))
    (camera1_distortion camera2_distortion : Option (List ℚ))
    (mono1 mono2 : MonoResult) (stereo : Option StereoResult) :
    CalibState × Bool :=
  if det1 = false then (st, false)
  else if det2 = false then (st, false)
  else
    match resolve_camera1 camera1_matrix camera1_distortion mono1 with
    | none => (st, false)
    | some p1 =>
      match resolve_camera2 w2 h2 camera2_matrix camera2_distortion mono2 with
      | none => (st, false)
      | some p2 =>
        if p1.1.a00 ≤ 0 ∨ p1.1.a11 ≤ 0 then (st, false)
        else if p2.1.a00 ≤ 0 ∨ p2.1.a11 ≤ 0 then (st, false)
        else
          match stereo with
          | none => (st, false)
          | some s =>
            if s.ret = 0 then (st, false)
            else
              (⟨some ⟨s.R, s.T⟩, some s.M1, some s.d1, some s.M2, some s.d2⟩, true)

/-- `CameraCalibration.calibrate_with_multiple_images` on state `st`:
`pairs` lists the per-pair chessboard detection outcomes, both intrinsics
must be supplied, at least 3 pairs must detect in both cameras, then the
stereo calibration runs (oracle).  On success only the extrinsic matrix is
stored — the four cached-intrinsics fields are left as they were. -/
def calibrate_with_multiple_images (st : CalibState) (pairs : List (Bool × Bool))
    (camera1_matrix camera2_matrix : Option (List ℚ))
    (camera1_distortion camera2_distortion : Option (List ℚ))
    (stereo : Option StereoResult) : CalibState × Bool :=
  if pairs.length = 0 then (st, false)
  else if camera1_matrix = none ∨ camera2_matrix = none then (st, false)
  else
    let success_count := (pairs.filter (fun p => p.1 && p.2)).length
    if success_count = 0 then (st, false)
    else if success_count < 3 then (st, false)
    else
      match stereo with
      | none => (st, false)
      | some s =>
        if s.ret = 0 then (st, false)
        else ({ st with extrinsic_matrix := some ⟨s.R, s.T⟩ }, true)

/-! ### Concrete test fixtures used by the claim witnesses -/

/-- The intrinsic matrix of §8's synthetic cameras:
`fx = fy = 800`, `cx = 320`, `cy = 240`. -/
def Kstd : Mat3 := ⟨800, 0, 320, 0, 800, 240, 0, 0, 1⟩

/-- Extrinsic pose with identity rotation and translation `(100, 0, 0)`
stored directly as the pose translation (camera-1 → camera-2 coordinates). -/
def extPlusX : Extrinsic := ⟨mat3Id, (100, 0, 0)⟩

/-- Extrinsic pose with identity rotation and translation `(-100, 0, 0)`:
the pose of a camera 2 displaced by `+100` along x in camera-1 coordinates. -/
def extMinusX : Extrinsic := ⟨mat3Id, (-100, 0, 0)⟩

/-- Extrinsic pose translated 500 along the optical axis (used to realize a
degenerate homography at plane depth 500). -/
def extZ500 : Extrinsic := ⟨mat3Id, (0, 0, 500)⟩

/-- The demonstration ROI `(x, y, w, h) = (100, 100, 200, 150)`. -/
def roiDemo : ℤ × ℤ × ℤ × ℤ := (100, 100, 200, 150)

/-- A 500×700 depth map with valid depth 1000 at exactly the two top
corners of `roiDemo` and invalid depth 0 everywhere else. -/
def dmTwoCorners : DepthMap :=
  ⟨500, 700, fun v u => if (v = 100 ∧ u = 100) ∨ (v = 100 ∧ u = 300) then 1000 else 0⟩

/-- A 500×700 depth map with valid depth only at the top-left corner of
`roiDemo`. -/
def dmOneCorner : DepthMap :=
  ⟨500, 700, fun v u => if v = 100 ∧ u = 100 then 1000 else 0⟩

/-- A 500×700 depth map whose exact pixel at `roiDemo`'s top-left corner
`(u, v) = (100, 100)` is invalid (0) while its radius-5 neighborhood holds
depth 500, and the other three corners hold depth 1000. -/
def dmFallbackDemo : DepthMap :=
  ⟨500, 700, fun v u =>
    if v = 100 ∧ u = 100 then 0
    else if v ≤ 110 ∧ u ≤ 110 then 500
    else 1000⟩

/-- A 500×700 depth map with constant depth 1000. -/
def dmConstDemo : DepthMap := ⟨500, 700, fun _ _ => 1000⟩

/-- As `dmConstDemo` but altered at the off-corner pixel `(0, 0)`. -/
def dmConstAltered : DepthMap :=
  ⟨500, 700, fun v u => if v = 0 ∧ u = 0 then -5 else 1000⟩

/-- A frame buffer carrying the first magic tag and an all-zero body. -/
def frameER1 : List ℕ := EPICRAW1_TAG ++ List.replicate 160 0

/-- An 8-byte buffer whose tag matches neither magic and whose 8th byte is
nonzero. -/
def frameBad : List ℕ := [1, 2, 3, 4, 5, 6, 7, 8]

/-- The empty calibration state (a freshly constructed `CameraCalibration`). -/
def stEmpty : CalibState := ⟨none, none, none, none, none⟩

/-- A flat 9-element camera-matrix argument (row-major `Kstd`). -/
def flatK : List ℚ := [800, 0, 320, 0, 800, 240, 0, 0, 1]

/-- A successful stereo-calibration oracle result. -/
def stereoOK : StereoResult :=
  ⟨1/2, Kstd, [0, 0, 0, 0], Kstd, [0, 0, 0, 0], mat3Id, (50, 0, 0)⟩

/-- The unnormalized homography `K2 · (R − t·nᵀ/d) · K1⁻¹` (default plane
normal `n = (0, 0, 1)`), the quantity whose `[2,2]` entry the source tests
against `1e-10` before normalizing. -/
def homography_unnormalized (E : Extrinsic) (K1 K2 : Mat3) (d : ℚ) : Mat3 :=
  mat3Mul K2 (mat3Mul (mat3Sub E.R (mat3Smul (1 / d) (outerProd E.t (0, 0, 1)))) (mat3Inv K1))

/-! ### Claim theorems -/

/-- C1 (counterexample): with the Extrinsic Pose holding identity rotation
and translation `(100, 0, 0)` — the pose convention of the data model,
mapping camera-1 coordinates to camera-2 coordinates — the depth-based
point transform sends camera-1 pixel `(320, 240)` at depth 1000 to
`(400, 240)`, not to the claimed `(240, 240)`. -/
theorem c1_counterexample :
    transform_point (some extPlusX) (320, 240) Kstd Kstd none none (some 1000) =
      some (400, 240) ∧
    transform_point (some extPlusX) (320, 240) Kstd Kstd none none (some 1000) ≠
      some (240, 240) := by
  constructor
  · norm_num [transform_point, extApply, mat3ApplyVec, Kstd, extPlusX, mat3Id]
  · norm_num [transform_point, extApply, mat3ApplyVec, Kstd, extPlusX, mat3Id]

/-- C1 (amended): for the §8 synthetic cameras (`fx = fy = 800`,
`cx = 320`, `cy = 240`, no distortion) and camera-1 pixel `(320, 240)` at
depth 1000, a pose translation of `(100, 0, 0)` yields camera-2 pixel
`(400, 240)`, while the claimed result `(240, 240)` is obtained exactly
when the pose translation is `(-100, 0, 0)`, i.e. when `(100, 0, 0)` is
read as the displacement of camera 2 in camera-1 coordinates. -/
theorem c1_amended :
    transform_point (some extPlusX) (320, 240) Kstd Kstd none none (some 1000) =
      some (400, 240) ∧
    transform_point (some extMinusX) (320, 240) Kstd Kstd none none (some 1000) =
      some (240, 240) := by
  constructor
  · norm_num [transform_point, extApply, mat3ApplyVec, Kstd, extPlusX, mat3Id]
  · norm_num [transform_point, extApply, mat3ApplyVec, Kstd, extMinusX, mat3Id]

/-- C2: the point-cloud reconstructor marks a pixel invalid (`none`,
standing for the all-NaN triple) iff its depth is `< 0.1` or `> 6000`;
every valid pixel's z-coordinate equals its depth (an invalid depth is
never coerced to zero — the invalid case produces no coordinates at all);
in particular a pixel of depth 1000 reconstructs with `z = 1000`. -/
theorem c2_depth_validity (dm : DepthMap) (lut : Option (ℕ → ℕ → ℚ × ℚ))
    (m : Mat3) (v u : ℕ) :
    (decode_point_cloud_from_depth dm lut m v u = none ↔
      dm.entry (v : ℤ) (u : ℤ) < 1/10 ∨ 6000 < dm.entry (v : ℤ) (u : ℤ)) ∧
    (∀ p, decode_point_cloud_from_depth dm lut m v u = some p →
      p.2.2 = dm.entry (v : ℤ) (u : ℤ)) ∧
    (dm.entry (v : ℤ) (u : ℤ) = 1000 →
      decode_point_cloud_from_depth dm lut m v u =
        some (((lutUV lut v u).1 - m.a02) * 1000 / m.a00,
              ((lutUV lut v u).2 - m.a12) * 1000 / m.a11, 1000)) := by
  simp only [decode_point_cloud_from_depth]
  by_cases h : dm.entry (v : ℤ) (u : ℤ) < 1/10 ∨ 6000 < dm.entry (v : ℤ) (u : ℤ)
  · refine ⟨?_, ?_, ?_⟩
    · rw [if_pos h]
      exact iff_of_true rfl h
    · intro p hp
      rw [if_pos h] at hp
      exact absurd hp (by simp)
    · intro he
      rw [he] at h
      norm_num at h
  · refine ⟨?_, ?_, ?_⟩
    · rw [if_neg h]
      exact iff_of_false (by simp) h
    · intro p hp
      rw [if_neg h] at hp
      simp only [Option.some.injEq] at hp
      rw [← hp]
    · intro he
      rw [if_neg h, he]

/-- C2 (witness): on a constant-1000 depth map with the standard intrinsics
and identity LUT, pixel `(v, u) = (2, 3)` is valid and reconstructs to
`z = 1000` with the expected back-projected x and y. -/
theorem c2_witness :
    (decode_point_cloud_from_depth dmConstDemo none Kstd 2 3 = none ↔
      (1000 : ℚ) < 1/10 ∨ (6000 : ℚ) < 1000) ∧
    decode_point_cloud_from_depth dmConstDemo none Kstd 2 3 =
      some (-1585/4, -595/2, 1000) := by
  have h := c2_depth_validity dmConstDemo none Kstd 2 3
  constructor
  · simpa [dmConstDemo] using h.1
  · have h3 := h.2.2 (by norm_num [dmConstDemo])
    rw [h3]
    norm_num [lutUV, Kstd]

/-- C5: version selection of the decoder — the first magic tag selects the
fixed-168-byte-header format, the second selects the 40-byte-header format,
an unmatched tag whose 8th byte is zero defaults to the first format, and
any other tag is `NotSupported`, in which case every accessor returns the
explicit absent result `none`. -/
theorem c5_version_selection (data : List ℕ) (hlen : 8 ≤ data.length) :
    (data.take 8 = EPICRAW1_TAG →
      get_file_type data = FileType.EpicRaw1 ∧
      get_depth_from_bytes data = epicraw1_get_depth data ∧
      get_image_from_epicraw_bytes data = epicraw1_get_image data) ∧
    (data.take 8 = EPICRAW2_TAG →
      get_file_type data = FileType.EpicRaw2 ∧
      get_depth_from_bytes data = epicraw2_get_depth data ∧
      get_image_from_epicraw_bytes data = epicraw2_get_image data) ∧
    (data.take 8 ≠ EPICRAW1_TAG → data.take 8 ≠ EPICRAW2_TAG →
      data.getD 7 1 = 0 → get_file_type data = FileType.EpicRaw1) ∧
    (data.take 8 ≠ EPICRAW1_TAG → data.take 8 ≠ EPICRAW2_TAG →
      data.getD 7 1 ≠ 0 →
      get_file_type data = FileType.NotSupported ∧
      get_depth_from_bytes data = none ∧
      get_image_from_epicraw_bytes data = none ∧
      get_matrix_from_epicraw_bytes data = none ∧
      get_distortion_from_epicraw_bytes data = none) := by
  refine ⟨?_, ?_, ?_, ?_⟩
  · intro h1
    simp [get_file_type, get_depth_from_bytes, get_image_from_epicraw_bytes, h1]
  · intro h2
    have h1 : data.take 8 ≠ EPICRAW1_TAG := by
      rw [h2]
      decide
    simp [get_file_type, get_depth_from_bytes, get_image_from_epicraw_bytes, h1, h2,
      EPICRAW1_TAG, EPICRAW2_TAG]
  · intro h1 h2 h0
    have h0g : data[7]?.getD 1 = 0 := by
      simp only [List.getD, List.get?_eq_getElem?] at h0
      exact h0
    simp [get_file_type, h1, h2, h0g]
  · intro h1 h2 h0
    have h0g : ¬data[7]?.getD 1 = 0 := by
      simp only [List.getD, List.get?_eq_getElem?] at h0
      exact h0
    simp [get_file_type, get_depth_from_bytes, get_image_from_epicraw_bytes,
      get_matrix_from_epicraw_bytes, get_distortion_from_epicraw_bytes, h1, h2, h0g]

set_option maxRecDepth 4000 in
/-- C5 (witness): a buffer tagged with the first magic decodes as the first
format, and a tag matching neither magic with nonzero 8th byte is
`NotSupported` with all accessors absent. -/
theorem c5_witness :
    get_file_type frameER1 = FileType.EpicRaw1 ∧
    get_file_type frameBad = FileType.NotSupported ∧
    get_depth_from_bytes frameBad = none ∧
    get_matrix_from_epicraw_bytes frameBad = none := by
  have hgood := (c5_version_selection frameER1 (by decide)).1 (by decide)
  have hbad := (c5_version_selection frameBad (by decide)).2.2.2
    (by decide) (by decide) (by decide)
  exact ⟨hgood.1, hbad.1, hbad.2.1, hbad.2.2.2.1⟩

/-- C8: each of the three transform operations invoked while the Extrinsic
Pose has not been computed fails (`None` — in the source with the dedicated
not-calibrated diagnostic print) and never produces a coordinate result,
for every input. -/
theorem c8_not_calibrated (point : ℚ × ℚ) (K1 K2 : Mat3)
    (d1 d2 : Option (List ℚ)) (depth : Option ℚ) (roi : ℤ × ℤ × ℤ × ℤ)
    (dm : Option DepthMap) (plane_depth : ℚ) :
    transform_point none point K1 K2 d1 d2 depth = none ∧
    transform_roi none roi K1 K2 d1 d2 dm = none ∧
    transform_roi_planar none roi K1 K2 plane_depth d1 d2 = none :=
  ⟨rfl, rfl, rfl⟩

/-- C6: the depth-based region transform fails exactly when fewer than 2 of
the 4 ROI corners transform successfully, and with 2 or more it returns the
bounding box computed from exactly the successfully transformed corners
(origin clamped at 0 as in the source). -/
theorem c6_corner_count_policy (E : Extrinsic) (roi : ℤ × ℤ × ℤ × ℤ)
    (K1 K2 : Mat3) (d1 d2 : Option (List ℚ)) (dm : DepthMap) :
    ((transformedROICorners E roi K1 K2 d1 d2 dm).length < 2 →
      transform_roi (some E) roi K1 K2 d1 d2 (some dm) = none) ∧
    (2 ≤ (transformedROICorners E roi K1 K2 d1 d2 dm).length →
      transform_roi (some E) roi K1 K2 d1 d2 (some dm) =
        some (roiBoundingBox (transformedROICorners E roi K1 K2 d1 d2 dm))) := by
  simp only [transform_roi]
  constructor
  · intro h
    rw [if_pos h]
  · intro h
    rw [if_neg (by omega)]

/-- C6 (witness): on `dmTwoCorners` exactly the two top corners of `roiDemo`
transform (to `(20, 100)` and `(220, 100)`), and the transform succeeds with
the degenerate-but-valid box `(20, 100, 200, 0)`; on `dmOneCorner` exactly
one corner transforms and the transform fails. -/
theorem c6_witness :
    transformedROICorners extMinusX roiDemo Kstd Kstd none none dmTwoCorners =
      [(20, 100), (220, 100)] ∧
    transform_roi (some extMinusX) roiDemo Kstd Kstd none none (some dmTwoCorners) =
      some (20, 100, 200, 0) ∧
    (transformedROICorners extMinusX roiDemo Kstd Kstd none none dmOneCorner).length = 1 ∧
    transform_roi (some extMinusX) roiDemo Kstd Kstd none none (some dmOneCorner) =
      none := by
  have htc : transformedROICorners extMinusX roiDemo Kstd Kstd none none dmTwoCorners =
      [(20, 100), (220, 100)] := by
    norm_num [transformedROICorners, roiCorners, roiCornerTransform, dmTwoCorners,
      transform_point_with_projectpoints, hasNonzeroDist, extApply, mat3ApplyVec,
      distortProject, Kstd, extMinusX, mat3Id, roiDemo, List.filterMap]
  have hlen1 : (transformedROICorners extMinusX roiDemo Kstd Kstd none none dmOneCorner).length
      = 1 := by
    norm_num [transformedROICorners, roiCorners, roiCornerTransform, dmOneCorner,
      transform_point_with_projectpoints, hasNonzeroDist, extApply, mat3ApplyVec,
      distortProject, Kstd, extMinusX, mat3Id, roiDemo, List.filterMap]
  refine ⟨htc, ?_, hlen1, ?_⟩
  · have h := (c6_corner_count_policy extMinusX roiDemo Kstd Kstd none none dmTwoCorners).2
      (by rw [htc]; norm_num)
    rw [h, htc]
    norm_num [roiBoundingBox, minList, maxList, truncQ]
  · exact (c6_corner_count_policy extMinusX roiDemo Kstd Kstd none none dmOneCorner).1
      (by omega)

/-- C3 (counterexample): at `roiDemo` on `dmFallbackDemo` the top-left
corner's exact-pixel depth is invalid (0) while the radius-5 neighborhood
mean is the valid depth 500, yet `transform_roi` drops that corner rather
than transforming it with the fallback depth: the result is the bounding
box of the other three corners, which differs from the box that the
claimed fallback behavior would produce (the fallback-transformed corner
would land at `(-60, 100)`, stretching the box to `(0, 100, 280, 150)`). -/
theorem c3_counterexample :
    dmFallbackDemo.entry 100 100 = 0 ∧
    get_depth_from_neighborhood dmFallbackDemo 100 100 5 = 500 ∧
    transformedROICorners extMinusX roiDemo Kstd Kstd none none dmFallbackDemo =
      [(220, 100), (220, 250), (20, 250)] ∧
    transform_roi (some extMinusX) roiDemo Kstd Kstd none none (some dmFallbackDemo) =
      some (20, 100, 200, 150) ∧
    transform_point_with_projectpoints (some extMinusX) (100, 100) Kstd Kstd
      none none (some 500) = some (-60, 100) ∧
    roiBoundingBox [(-60, 100), (220, 100), (220, 250), (20, 250)] =
      (0, 100, 280, 150) ∧
    ((0 : ℤ), (100 : ℤ), (280 : ℤ), (150 : ℤ)) ≠ ((20 : ℤ), (100 : ℤ), (200 : ℤ), (150 : ℤ)) := by
  refine ⟨by norm_num [dmFallbackDemo], ?_, ?_, ?_, ?_, ?_, by decide⟩
  · simp only [get_depth_from_neighborhood, dmFallbackDemo, intRange]
    norm_num [show Int.toNat 11 = 11 from rfl, List.range_succ]
  · norm_num [transformedROICorners, roiCorners, roiCornerTransform, dmFallbackDemo,
      transform_point_with_projectpoints, hasNonzeroDist, extApply, mat3ApplyVec,
      distortProject, Kstd, extMinusX, mat3Id, roiDemo, List.filterMap]
  · norm_num [transform_roi, transformedROICorners, roiCorners, roiCornerTransform,
      dmFallbackDemo, transform_point_with_projectpoints, hasNonzeroDist, extApply,
      mat3ApplyVec, distortProject, Kstd, extMinusX, mat3Id, roiDemo, roiBoundingBox,
      minList, maxList, truncQ, List.filterMap]
  · norm_num [transform_point_with_projectpoints, hasNonzeroDist, extApply,
      mat3ApplyVec, distortProject, Kstd, extMinusX, mat3Id]
  · norm_num [roiBoundingBox, minList, maxList, truncQ]

/-- C3 (amended): the depth-based region transform samples the depth map
only at the four exact corner pixels — two depth maps of equal shape that
agree on those four pixels yield identical results, so no neighborhood
fallback takes part — and a corner whose exact-pixel depth is nonpositive
is simply dropped.  (The radius-5 neighborhood-mean fallback
`_get_depth_from_neighborhood` exists only in the UI tool's four-point
transform path, not in `transform_roi`.) -/
theorem c3_amended :
    (∀ (E : Extrinsic) (roi : ℤ × ℤ × ℤ × ℤ) (K1 K2 : Mat3)
      (d1 d2 : Option (List ℚ)) (dm dm' : DepthMap),
      dm.rows = dm'.rows → dm.cols = dm'.cols →
      (∀ c ∈ roiCorners roi, dm.entry c.2 c.1 = dm'.entry c.2 c.1) →
      transform_roi (some E) roi K1 K2 d1 d2 (some dm) =
        transform_roi (some E) roi K1 K2 d1 d2 (some dm')) ∧
    (∀ (E : Extrinsic) (K1 K2 : Mat3) (d1 d2 : Option (List ℚ))
      (dm : DepthMap) (c : ℤ × ℤ),
      dm.entry c.2 c.1 ≤ 0 →
      roiCornerTransform E K1 K2 d1 d2 dm c = none) := by
  constructor
  · intro E roi K1 K2 d1 d2 dm dm' hrows hcols hag
    have htc : transformedROICorners E roi K1 K2 d1 d2 dm =
        transformedROICorners E roi K1 K2 d1 d2 dm' := by
      unfold transformedROICorners
      refine List.filterMap_congr ?_
      intro c hc
      simp only [roiCornerTransform, hrows, hcols, hag c hc]
    simp only [transform_roi, htc]
  · intro E K1 K2 d1 d2 dm c hd
    simp only [roiCornerTransform]
    split
    · rw [if_neg (not_lt.mpr hd)]
    · rfl

/-- C3 (amended, witness): two constant-shape depth maps differing only at
the off-corner pixel `(0, 0)` give identical region-transform results for
`roiDemo` — concretely `(20, 100, 200, 150)` on both — and the dropped-corner
fact instantiated at `dmFallbackDemo`'s invalid corner. -/
theorem c3_amended_witness :
    dmConstDemo.entry 0 0 = 1000 ∧
    dmConstAltered.entry 0 0 = -5 ∧
    transform_roi (some extMinusX) roiDemo Kstd Kstd none none (some dmConstDemo) =
      transform_roi (some extMinusX) roiDemo Kstd Kstd none none (some dmConstAltered) ∧
    roiCornerTransform extMinusX Kstd Kstd none none dmFallbackDemo (100, 100) = none := by
  refine ⟨by norm_num [dmConstDemo], by norm_num [dmConstAltered], ?_, ?_⟩
  · refine c3_amended.1 extMinusX roiDemo Kstd Kstd none none dmConstDemo dmConstAltered
      rfl rfl ?_
    intro c hc
    simp only [roiCorners, roiDemo, List.mem_cons, List.not_mem_nil, or_false] at hc
    rcases hc with rfl | rfl | rfl | rfl <;> norm_num [dmConstDemo, dmConstAltered]
  · exact c3_amended.2 extMinusX Kstd Kstd none none dmFallbackDemo (100, 100)
      (by norm_num [dmFallbackDemo])

/-- C7: the homography derivation computes `H = K2 · (R − t·nᵀ/d) · K1⁻¹`
(default normal `n = (0,0,1)`, camera-1 optical axis) and normalizes so
that `H[2,2] = 1`; whenever `|H[2,2]|` (before normalization) is not above
`1e-10` it refuses with `none` instead of dividing, and plane depth 0 —
which would make `t·nᵀ/d` NaN/Inf — is likewise refused. -/
theorem c7_homography_policy (E : Extrinsic) (K1 K2 : Mat3) (d : ℚ)
    (hd : d ≠ 0) (hK : det3 K1 ≠ 0) :
    (|(homography_unnormalized E K1 K2 d).a22| ≤ 1/10000000000 →
      compute_homography_from_extrinsic (some E) K1 K2 d = none) ∧
    (1/10000000000 < |(homography_unnormalized E K1 K2 d).a22| →
      compute_homography_from_extrinsic (some E) K1 K2 d =
        some (mat3Smul (1 / (homography_unnormalized E K1 K2 d).a22)
          (homography_unnormalized E K1 K2 d)) ∧
      (mat3Smul (1 / (homography_unnormalized E K1 K2 d).a22)
        (homography_unnormalized E K1 K2 d)).a22 = 1) ∧
    compute_homography_from_extrinsic (some E) K1 K2 0 = none := by
  have hc : compute_homography_from_extrinsic (some E) K1 K2 d =
      (if 1/10000000000 < |(homography_unnormalized E K1 K2 d).a22| then
        some (mat3Smul (1 / (homography_unnormalized E K1 K2 d).a22)
          (homography_unnormalized E K1 K2 d))
      else none) := by
    simp only [compute_homography_from_extrinsic, homography_unnormalized]
    rw [if_neg hK, if_neg hd]
  have hc0 : compute_homography_from_extrinsic (some E) K1 K2 0 = none := by
    simp [compute_homography_from_extrinsic, hK]
  refine ⟨?_, ?_, hc0⟩
  · intro h
    rw [hc, if_neg (not_lt.mpr h)]
  · intro h
    have ha : (homography_unnormalized E K1 K2 d).a22 ≠ 0 := by
      intro h0
      rw [h0] at h
      norm_num at h
    refine ⟨by rw [hc, if_pos h], ?_⟩
    simp only [mat3Smul]
    exact one_div_mul_cancel ha

/-- C7 (witness): with identity rotation, translation `(0, 0, 500)` and the
standard intrinsics, plane depth 500 makes the unnormalized `H[2,2]` exactly
0 and the derivation refuses, while plane depth 1000 yields the normalized
homography with `H[2,2] = 1`. -/
theorem c7_witness :
    compute_homography_from_extrinsic (some extZ500) Kstd Kstd 500 = none ∧
    compute_homography_from_extrinsic (some extZ500) Kstd Kstd 1000 =
      some ⟨2, 0, -320, 0, 2, -240, 0, 0, 1⟩ ∧
    (2 : ℚ) * 0 + 0 * 0 + 1 = 1 := by
  refine ⟨?_, ?_, by norm_num⟩
  · exact (c7_homography_policy extZ500 Kstd Kstd 500 (by norm_num)
      (by norm_num [det3, Kstd])).1
      (by norm_num [homography_unnormalized, mat3Mul, mat3Sub, mat3Smul, mat3Inv,
        det3, outerProd, Kstd, extZ500, mat3Id])
  · have h := (c7_homography_policy extZ500 Kstd Kstd 1000 (by norm_num)
      (by norm_num [det3, Kstd])).2.1
      (by norm_num [homography_unnormalized, mat3Mul, mat3Sub, mat3Smul, mat3Inv,
        det3, outerProd, Kstd, extZ500, mat3Id, abs_of_pos])
    rw [h.1]
    norm_num [homography_unnormalized, mat3Mul, mat3Sub, mat3Smul, mat3Inv,
      det3, outerProd, Kstd, extZ500, mat3Id, Mat3.mk.injEq]

/-- C4 (counterexample): with image size 640×480, an optimized camera-2
matrix whose focal lengths (600, 500) are plausible but whose principal
point `cx = -10` lies outside the image, the validation resets only the
principal point to the initial guess and keeps the optimized focal lengths
and distortion — it does not discard the result in favour of the initial
guess with zero distortion as claimed. -/
theorem c4_counterexample :
    validate_camera2_mono 640 480 ⟨600, 0, -10, 0, 500, 200, 0, 0, 1⟩
      [1/10, 0, 0, 0] =
      (⟨600, 0, 320, 0, 500, 240, 0, 0, 1⟩, [1/10, 0, 0, 0]) ∧
    ((⟨600, 0, 320, 0, 500, 240, 0, 0, 1⟩ : Mat3), ([1/10, 0, 0, 0] : List ℚ)) ≠
      (camera2_init_matrix 640 480, ([0, 0, 0, 0] : List ℚ)) := by
  constructor
  · norm_num [validate_camera2_mono, camera2_init_matrix]
  · norm_num [camera2_init_matrix, Prod.ext_iff, Mat3.mk.injEq]

/-- C4 (amended): the monocular estimator's initial guess is
`fx = fy = 0.8·max(w,h)`, `cx = w/2`, `cy = h/2`, and the post-optimization
validation behaves as follows — a focal length outside `[0.3, 3]×` the
image dimension discards the optimized result for the initial guess with
zero distortion; otherwise a principal point outside the image bounds
resets only the principal point to the initial guess, keeping the
optimized focal lengths and distortion; otherwise the optimized result is
kept unchanged. -/
theorem c4_amended (w h : ℚ) (M : Mat3) (dist : List ℚ)
    (hw : 0 < w) (hh : 0 < h) :
    camera2_init_matrix w h =
      ⟨(4/5) * max w h, 0, w / 2, 0, (4/5) * max w h, h / 2, 0, 0, 1⟩ ∧
    ((M.a00 < w * (3/10) ∨ w * 3 < M.a00 ∨ M.a11 < h * (3/10) ∨ h * 3 < M.a11) →
      validate_camera2_mono w h M dist = (camera2_init_matrix w h, [0, 0, 0, 0])) ∧
    (¬(M.a00 < w * (3/10) ∨ w * 3 < M.a00 ∨ M.a11 < h * (3/10) ∨ h * 3 < M.a11) →
      (M.a02 < 0 ∨ w < M.a02 ∨ M.a12 < 0 ∨ h < M.a12) →
      validate_camera2_mono w h M dist = ({ M with a02 := w / 2, a12 := h / 2 }, dist)) ∧
    (¬(M.a00 < w * (3/10) ∨ w * 3 < M.a00 ∨ M.a11 < h * (3/10) ∨ h * 3 < M.a11) →
      ¬(M.a02 < 0 ∨ w < M.a02 ∨ M.a12 < 0 ∨ h < M.a12) →
      validate_camera2_mono w h M dist = (M, dist)) := by
  refine ⟨rfl, ?_, ?_, ?_⟩
  · intro hbad
    simp only [validate_camera2_mono]
    rw [if_pos hbad]
    split <;> rfl
  · intro hgood hpp
    have hno : ¬(w * 10 < M.a00 ∨ h * 10 < M.a11) := by
      push_neg at hgood ⊢
      constructor
      · nlinarith [hgood.2.1]
      · nlinarith [hgood.2.2.2]
    simp only [validate_camera2_mono]
    rw [if_neg hgood, if_pos hpp]
    simp [hno]
  · intro hgood hppgood
    have hno : ¬(w * 10 < M.a00 ∨ h * 10 < M.a11) := by
      push_neg at hgood ⊢
      constructor
      · nlinarith [hgood.2.1]
      · nlinarith [hgood.2.2.2]
    simp only [validate_camera2_mono]
    rw [if_neg hgood, if_neg hppgood]
    simp [hno]

/-- C4 (amended, witness): the amended trichotomy applied at image size
640×480 to the out-of-bounds-principal-point counterexample matrix keeps
focals and distortion and resets the principal point. -/
theorem c4_amended_witness :
    validate_camera2_mono 640 480 ⟨600, 0, -10, 0, 500, 200, 0, 0, 1⟩
      [1/10, 0, 0, 0] =
      ({ (⟨600, 0, -10, 0, 500, 200, 0, 0, 1⟩ : Mat3) with a02 := 640 / 2, a12 := 480 / 2 },
       [1/10, 0, 0, 0]) :=
  (c4_amended 640 480 ⟨600, 0, -10, 0, 500, 200, 0, 0, 1⟩ [1/10, 0, 0, 0]
    (by norm_num) (by norm_num)).2.2.1 (by norm_num) (by norm_num)

/-- C9 (counterexample): a successful multi-pair calibration run on the
empty state (3 detected pairs, both intrinsics supplied, stereo oracle
succeeds) sets the Extrinsic Pose but leaves every cached-intrinsics field
unset — it does not set the cached intrinsics the claim asserts. -/
theorem c9_counterexample :
    (calibrate_with_multiple_images stEmpty [(true, true), (true, true), (true, true)]
      (some flatK) (some flatK) none none (some stereoOK)).2 = true ∧
    (calibrate_with_multiple_images stEmpty [(true, true), (true, true), (true, true)]
      (some flatK) (some flatK) none none (some stereoOK)).1.extrinsic_matrix =
      some ⟨mat3Id, (50, 0, 0)⟩ ∧
    (calibrate_with_multiple_images stEmpty [(true, true), (true, true), (true, true)]
      (some flatK) (some flatK) none none (some stereoOK)).1.camera1_matrix = none ∧
    (calibrate_with_multiple_images stEmpty [(true, true), (true, true), (true, true)]
      (some flatK) (some flatK) none none (some stereoOK)).1.camera2_matrix = none := by
  norm_num [calibrate_with_multiple_images, stEmpty, stereoOK, List.filter]
  simp

/-- C9 (amended): a successful single-pair calibration sets the Extrinsic
Pose and all four cached-intrinsics fields from the stereo result, while a
successful multi-pair calibration sets only the Extrinsic Pose and leaves
the cached intrinsics exactly as they were. -/
theorem c9_amended :
    (∀ (st : CalibState) (det1 det2 : Bool) (w1 h1 w2 h2 : ℚ)
      (c1m c2m c1d c2d : Option (List ℚ)) (m1 m2 : MonoResult)
      (stereo : Option StereoResult),
      (calibrate_with_chessboard st det1 det2 w1 h1 w2 h2
        c1m c2m c1d c2d m1 m2 stereo).2 = true →
      stereo.map (fun s =>
        (⟨some ⟨s.R, s.T⟩, some s.M1, some s.d1, some s.M2, some s.d2⟩ : CalibState)) =
        some (calibrate_with_chessboard st det1 det2 w1 h1 w2 h2
          c1m c2m c1d c2d m1 m2 stereo).1) ∧
    (∀ (st : CalibState) (pairs : List (Bool × Bool))
      (c1m c2m c1d c2d : Option (List ℚ)) (stereo : Option StereoResult),
      (calibrate_with_multiple_images st pairs c1m c2m c1d c2d stereo).2 = true →
      stereo.map (fun s => { st with extrinsic_matrix := some ⟨s.R, s.T⟩ }) =
        some (calibrate_with_multiple_images st pairs c1m c2m c1d c2d stereo).1) := by
  constructor
  · intro st det1 det2 w1 h1 w2 h2 c1m c2m c1d c2d m1 m2 stereo
    simp only [calibrate_with_chessboard]
    repeat' split
    all_goals intro h
    all_goals first
      | rfl
      | (exfalso; simp at h)
  · intro st pairs c1m c2m c1d c2d stereo
    simp only [calibrate_with_multiple_images]
    repeat' split
    all_goals intro h
    all_goals first
      | rfl
      | (exfalso; simp at h)

/-- C9 (amended, witness): the multi-pair branch applied to the concrete
successful run of the counterexample scenario. -/
theorem c9_amended_witness :
    (some stereoOK : Option StereoResult).map
      (fun s => { stEmpty with extrinsic_matrix := some ⟨s.R, s.T⟩ }) =
      some (calibrate_with_multiple_images stEmpty [(true, true), (true, true), (true, true)]
        (some flatK) (some flatK) none none (some stereoOK)).1 :=
  c9_amended.2 stEmpty [(true, true), (true, true), (true, true)]
    (some flatK) (some flatK) none none (some stereoOK)
    (by norm_num [calibrate_with_multiple_images, stEmpty, stereoOK, List.filter]; simp)

/-- C10: calibration is atomic — on every failure return (`false`) of the
single-pair or multi-pair calibration, the stored calibration state is
exactly what it was before the call; only a success mutates it. -/
theorem c10_failure_leaves_state (st : CalibState) (det1 det2 : Bool)
    (w1 h1 w2 h2 : ℚ) (c1m c2m c1d c2d : Option (List ℚ))
    (m1 m2 : MonoResult) (stereo : Option StereoResult)
    (pairs : List (Bool × Bool)) :
    ((calibrate_with_chessboard st det1 det2 w1 h1 w2 h2
      c1m c2m c1d c2d m1 m2 stereo).2 = false →
      (calibrate_with_chessboard st det1 det2 w1 h1 w2 h2
        c1m c2m c1d c2d m1 m2 stereo).1 = st) ∧
    ((calibrate_with_multiple_images st pairs c1m c2m c1d c2d stereo).2 = false →
      (calibrate_with_multiple_images st pairs c1m c2m c1d c2d stereo).1 = st) := by
  constructor
  · simp only [calibrate_with_chessboard]
    repeat' split
    all_goals intro h
    all_goals first
      | rfl
      | (exfalso; simp at h)
  · simp only [calibrate_with_multiple_images]
    repeat' split
    all_goals intro h
    all_goals first
      | rfl
      | (exfalso; simp at h)

/-- C10 (witness): a single-pair run failing at detection and a multi-pair
run failing on an empty pair list both leave a nonempty state untouched. -/
theorem c10_witness :
    (calibrate_with_chessboard ⟨some extPlusX, none, none, none, none⟩ false true
      10 10 10 10 none none none none ⟨1, Kstd, []⟩ ⟨1, Kstd, []⟩ none).2 = false ∧
    (calibrate_with_chessboard ⟨some extPlusX, none, none, none, none⟩ false true
      10 10 10 10 none none none none ⟨1, Kstd, []⟩ ⟨1, Kstd, []⟩ none).1 =
      ⟨some extPlusX, none, none, none, none⟩ ∧
    (calibrate_with_multiple_images ⟨some extPlusX, none, none, none, none⟩ []
      (some flatK) (some flatK) none none (some stereoOK)).2 = false ∧
    (calibrate_with_multiple_images ⟨some extPlusX, none, none, none, none⟩ []
      (some flatK) (some flatK) none none (some stereoOK)).1 =
      ⟨some extPlusX, none, none, none, none⟩ := by
  have h1 : (calibrate_with_chessboard ⟨some extPlusX, none, none, none, none⟩ false true
      10 10 10 10 none none none none ⟨1, Kstd, []⟩ ⟨1, Kstd, []⟩ none).2 = false := rfl
  have h2 : (calibrate_with_multiple_images ⟨some extPlusX, none, none, none, none⟩ []
      (some flatK) (some flatK) none none (some stereoOK)).2 = false := rfl
  exact ⟨h1,
    (c10_failure_leaves_state ⟨some extPlusX, none, none, none, none⟩ false true
      10 10 10 10 none none none none ⟨1, Kstd, []⟩ ⟨1, Kstd, []⟩ none []).1 h1,
    h2,
    (c10_failure_leaves_state ⟨some extPlusX, none, none, none, none⟩ false true
      10 10 10 10 (some flatK) (some flatK) none none ⟨1, Kstd, []⟩ ⟨1, Kstd, []⟩
      (some stereoOK) []).2 h2⟩
